import Mathlib

/-!
Shallow embedding of the credit-card backend (`backend/app`) in Lean 4,
together with proofs about the application-approval workflow, the card
ledger arithmetic and the CIBIL score calculator.

Conventions of the embedding:
* Python numbers (ints and floats) are modelled as rationals `ℚ`; the
  float values arising in this code base (balances, limits, the loan
  penalty `existing_loan / 10000`) are exactly representable, so `ℚ`
  is a faithful model of the arithmetic actually performed.
* MongoDB documents become Lean structures.  Fields that are generated
  randomly or are pure presentation data (card number, CVV, reward text,
  wall-clock timestamps) are not carried; `processed_at` is kept as a
  `Bool` flag recording whether the resolution timestamp has been set.
* The store's `update_one(...).modified_count > 0` signal is modelled by
  a `confirmed : Bool` argument to each mutating operation: `true` means
  the store reported a modification.  Python methods that mutate `self`
  become functions returning the new in-memory object, mutating exactly
  where the Python does.
* Fire-and-forget side effects (notifications, audit log, the demo
  sample transactions seeded on approval) touch neither the application
  nor the card state and are omitted.
-/

namespace CreditBackend

/-! ### Customer data and the CIBIL score (`app/models/customer.py`) -/

/-- The applicant attributes read by `Customer.calculate_cibil_score`. -/
structure CustomerData where
  annual_income : ℚ
  years_of_experience : ℚ
  employment_type : String
  age : ℚ
  existing_loan_amount : ℚ
deriving Repr, DecidableEq

/-- Income factor: `annual_income >= 1000000 → +200`, `>= 500000 → +150`,
`>= 300000 → +100`, else `+0`. -/
def income_factor (annual_income : ℚ) : ℚ :=
  if annual_income ≥ 1000000 then 200
  else if annual_income ≥ 500000 then 150
  else if annual_income ≥ 300000 then 100
  else 0

/-- Experience factor: `>= 5 → +100`, `>= 2 → +50`, else `+0`. -/
def experience_factor (years_of_experience : ℚ) : ℚ :=
  if years_of_experience ≥ 5 then 100
  else if years_of_experience ≥ 2 then 50
  else 0

/-- Employment factor: `salaried → +100`, `self_employed → +50`, else `+0`. -/
def employment_factor (employment_type : String) : ℚ :=
  if employment_type = "salaried" then 100
  else if employment_type = "self_employed" then 50
  else 0

/-- Age factor: `25 ≤ age ≤ 35 → +50`, `36 ≤ age ≤ 45 → +75`, else `+0`. -/
def age_factor (age : ℚ) : ℚ :=
  if 25 ≤ age ∧ age ≤ 35 then 50
  else if 36 ≤ age ∧ age ≤ 45 then 75
  else 0

/-- Existing-loan penalty: `min(existing_loan / 10000, 100)` subtracted when
`existing_loan > 0`.  Python's `/` is true division, hence `ℚ` division. -/
def loan_penalty (existing_loan : ℚ) : ℚ :=
  if existing_loan > 0 then min (existing_loan / 10000) 100 else 0

/-- `Customer.calculate_cibil_score`: base 300, the additive factors above,
then the clamp `min(max(score, 300), 900)`. -/
def calculate_cibil_score (c : CustomerData) : ℚ :=
  min (max (300 + income_factor c.annual_income
      + experience_factor c.years_of_experience
      + employment_factor c.employment_type
      + age_factor c.age
      - loan_penalty c.existing_loan_amount) 300) 900

example :
    calculate_cibil_score ⟨600000, 3, "salaried", 25, 0⟩ = 650 := by
  norm_num [calculate_cibil_score, income_factor, experience_factor,
    employment_factor, age_factor, loan_penalty]

/-- C4: every CIBIL score is clamped into [300, 900]. -/
theorem calculate_cibil_score_range (c : CustomerData) :
    300 ≤ calculate_cibil_score c ∧ calculate_cibil_score c ≤ 900 := by
  unfold calculate_cibil_score
  constructor
  · have h300 : (300 : ℚ) ≤ max (300 + income_factor c.annual_income
        + experience_factor c.years_of_experience
        + employment_factor c.employment_type
        + age_factor c.age
        - loan_penalty c.existing_loan_amount) 300 := le_max_right _ _
    exact le_min h300 (by norm_num)
  · exact min_le_right _ _

/-- The income factor is monotone in income. -/
lemma income_factor_mono {a b : ℚ} (h : a ≤ b) :
    income_factor a ≤ income_factor b := by
  unfold income_factor
  split_ifs <;> linarith

/-- The experience factor is monotone in years of experience. -/
lemma experience_factor_mono {a b : ℚ} (h : a ≤ b) :
    experience_factor a ≤ experience_factor b := by
  unfold experience_factor
  split_ifs <;> linarith

/-- Salaried employment receives the largest employment factor. -/
lemma employment_factor_le_salaried (e : String) :
    employment_factor e ≤ employment_factor "salaried" := by
  have hs : employment_factor "salaried" = 100 := by decide
  rw [hs]
  unfold employment_factor
  split_ifs <;> norm_num

/-- Clamping to [300, 900] preserves `≤`. -/
lemma clamp_mono {a b : ℚ} (h : a ≤ b) :
    min (max a 300) 900 ≤ min (max b 300) 900 :=
  min_le_min (max_le_max h le_rfl) le_rfl

/-- C10: the CIBIL score is monotonically non-decreasing in annual income,
in years of experience, and when employment switches to salaried, holding
every other attribute fixed. -/
theorem calculate_cibil_score_monotone (c : CustomerData) (i e : ℚ)
    (hi : c.annual_income ≤ i) (he : c.years_of_experience ≤ e) :
    calculate_cibil_score c ≤ calculate_cibil_score { c with annual_income := i } ∧
    calculate_cibil_score c ≤ calculate_cibil_score { c with years_of_experience := e } ∧
    (c.employment_type ≠ "salaried" →
      calculate_cibil_score c ≤ calculate_cibil_score { c with employment_type := "salaried" }) := by
  refine ⟨?_, ?_, fun _ => ?_⟩ <;>
    · unfold calculate_cibil_score
      apply clamp_mono
      simp only []
      have h1 := income_factor_mono hi
      have h2 := experience_factor_mono he
      have h3 := employment_factor_le_salaried c.employment_type
      linarith

/-- Witness for C10 at a concrete applicant. -/
theorem calculate_cibil_score_monotone_witness :
    (⟨400000, 1, "self_employed", 30, 0⟩ : CustomerData).annual_income ≤ 600000 ∧
    (⟨400000, 1, "self_employed", 30, 0⟩ : CustomerData).years_of_experience ≤ 3 ∧
    (calculate_cibil_score ⟨400000, 1, "self_employed", 30, 0⟩ ≤
        calculate_cibil_score ⟨600000, 1, "self_employed", 30, 0⟩ ∧
      calculate_cibil_score ⟨400000, 1, "self_employed", 30, 0⟩ ≤
        calculate_cibil_score ⟨400000, 3, "self_employed", 30, 0⟩ ∧
      ("self_employed" ≠ "salaried" →
        calculate_cibil_score ⟨400000, 1, "self_employed", 30, 0⟩ ≤
          calculate_cibil_score ⟨400000, 1, "salaried", 30, 0⟩)) :=
  ⟨by norm_num, by norm_num,
    calculate_cibil_score_monotone ⟨400000, 1, "self_employed", 30, 0⟩ 600000 3
      (by norm_num) (by norm_num)⟩

/-- C7 counterexample: with income 300000 and an existing loan of 5000 the
score is 399.5, which is not an integer (`5000 / 10000 = 0.5`, Python true
division). -/
theorem cibil_score_not_integer :
    calculate_cibil_score ⟨300000, 0, "unemployed", 0, 5000⟩ = 799 / 2 ∧
    ¬ ∃ n : ℤ, calculate_cibil_score ⟨300000, 0, "unemployed", 0, 5000⟩ = (n : ℚ) := by
  have hval : calculate_cibil_score ⟨300000, 0, "unemployed", 0, 5000⟩ = 799 / 2 := by
    have hemp : employment_factor "unemployed" = 0 := by decide
    unfold calculate_cibil_score
    rw [hemp]
    unfold income_factor experience_factor age_factor loan_penalty
    norm_num [min_def, max_def]
  refine ⟨hval, ?_⟩
  rintro ⟨n, hn⟩
  rw [hval] at hn
  have h2 : (799 : ℚ) = 2 * (n : ℚ) := by linarith
  have h3 : (799 : ℤ) = 2 * n := by exact_mod_cast h2
  omega

lemma income_factor_int (x : ℚ) : ∃ n : ℤ, income_factor x = (n : ℚ) := by
  unfold income_factor
  split_ifs
  exacts [⟨200, by norm_num⟩, ⟨150, by norm_num⟩, ⟨100, by norm_num⟩, ⟨0, by norm_num⟩]

lemma experience_factor_int (x : ℚ) : ∃ n : ℤ, experience_factor x = (n : ℚ) := by
  unfold experience_factor
  split_ifs
  exacts [⟨100, by norm_num⟩, ⟨50, by norm_num⟩, ⟨0, by norm_num⟩]

lemma employment_factor_int (x : String) : ∃ n : ℤ, employment_factor x = (n : ℚ) := by
  unfold employment_factor
  split_ifs
  exacts [⟨100, by norm_num⟩, ⟨50, by norm_num⟩, ⟨0, by norm_num⟩]

lemma age_factor_int (x : ℚ) : ∃ n : ℤ, age_factor x = (n : ℚ) := by
  unfold age_factor
  split_ifs
  exacts [⟨50, by norm_num⟩, ⟨75, by norm_num⟩, ⟨0, by norm_num⟩]

lemma loan_penalty_int_of_multiple (k : ℤ) :
    ∃ n : ℤ, loan_penalty (10000 * (k : ℚ)) = (n : ℚ) := by
  unfold loan_penalty
  split_ifs with h
  · refine ⟨min k 100, ?_⟩
    have hdiv : (10000 * (k : ℚ)) / 10000 = (k : ℚ) := by
      field_simp
    rw [hdiv]
    push_cast
    rfl
  · exact ⟨0, by norm_num⟩

/-- C7 amended: when the existing loan amount is an integer multiple of
10000 (in particular whenever it is 0), the CIBIL score is an integer. -/
theorem cibil_score_integer_of_loan_multiple (c : CustomerData) (k : ℤ)
    (hk : c.existing_loan_amount = 10000 * (k : ℚ)) :
    ∃ n : ℤ, calculate_cibil_score c = (n : ℚ) := by
  obtain ⟨a, ha⟩ := income_factor_int c.annual_income
  obtain ⟨b, hb⟩ := experience_factor_int c.years_of_experience
  obtain ⟨d, hd⟩ := employment_factor_int c.employment_type
  obtain ⟨e, he⟩ := age_factor_int c.age
  have hf' := loan_penalty_int_of_multiple k
  rw [← hk] at hf'
  obtain ⟨f, hf⟩ := hf'
  refine ⟨min (max (300 + a + b + d + e - f) 300) 900, ?_⟩
  unfold calculate_cibil_score
  rw [ha, hb, hd, he, hf]
  push_cast
  rfl

/-- Witness for the amended C7 at an existing loan of 20000. -/
theorem cibil_score_integer_of_loan_multiple_witness :
    (⟨0, 0, "", 0, 20000⟩ : CustomerData).existing_loan_amount = 10000 * ((2 : ℤ) : ℚ) ∧
    ∃ n : ℤ, calculate_cibil_score ⟨0, 0, "", 0, 20000⟩ = (n : ℚ) :=
  ⟨by norm_num,
    cibil_score_integer_of_loan_multiple ⟨0, 0, "", 0, 20000⟩ 2 (by norm_num)⟩

/-! ### Credit cards (`app/models/credit_card.py`)

The store's `update_one(...).modified_count > 0` signal is passed in as
`confirmed : Bool`.  Randomly generated display fields (card number, CVV)
and wall-clock timestamps are not modelled. -/

/-- The financially relevant state of one credit-card document. -/
structure CreditCard where
  customer_id : Nat
  credit_limit : ℚ
  current_balance : ℚ
  available_credit : ℚ
  is_active : Bool
deriving Repr, DecidableEq

/-- A `$set` payload for `CreditCard.update`: a field is `some v` exactly
when the corresponding dictionary key is present. -/
structure CreditCardUpdate where
  current_balance : Option ℚ := none
  available_credit : Option ℚ := none
  is_active : Option Bool := none
deriving Repr, DecidableEq

/-- The `setattr` loop of `CreditCard.update` applied to the in-memory
object. -/
def CreditCard.applySet (card : CreditCard) (u : CreditCardUpdate) : CreditCard :=
  { card with
    current_balance := u.current_balance.getD card.current_balance
    available_credit := u.available_credit.getD card.available_credit
    is_active := u.is_active.getD card.is_active }

/-- `CreditCard.update`: issues the `$set` write and rewrites the in-memory
attributes only when the store confirmed a modification
(`modified_count > 0`); the returned `Bool` is exactly that signal. -/
def CreditCard.update (card : CreditCard) (u : CreditCardUpdate)
    (confirmed : Bool) : Bool × CreditCard :=
  (confirmed, if confirmed then card.applySet u else card)

/-- `CreditCard.update_balance`: first mutates `self.current_balance`
directly — a `debit` adds the amount, any other transaction type subtracts
it with `max(0, ...)` — then recomputes `self.available_credit`, then
persists both fields via `update`. -/
def CreditCard.update_balance (card : CreditCard) (amount : ℚ)
    (transaction_type : String) (confirmed : Bool) : Bool × CreditCard :=
  let card :=
    if transaction_type = "debit" then
      { card with current_balance := card.current_balance + amount }
    else
      { card with current_balance := max 0 (card.current_balance - amount) }
  let card := { card with available_credit := card.credit_limit - card.current_balance }
  card.update
    { current_balance := some card.current_balance
      available_credit := some card.available_credit } confirmed

/-- `CreditCard.create`: the derived field is computed as
`card_data.get('credit_limit', 0) - card_data.get('current_balance', 0)`
before insertion; `__init__` then defaults a missing balance to 0.  Every
caller in the code passes `credit_limit`, so it is taken as required here;
`current_balance` keeps its optional-with-default-0 treatment. -/
def CreditCard.create (customer_id : Nat) (credit_limit : ℚ)
    (current_balance : Option ℚ) : CreditCard :=
  { customer_id := customer_id
    credit_limit := credit_limit
    current_balance := current_balance.getD 0
    available_credit := credit_limit - current_balance.getD 0
    is_active := true }

/-- The in-memory card produced by `update_balance` does not depend on the
store's confirmation: the balance fields are mutated before the write and
the confirmed branch merely re-assigns the same values. -/
lemma update_balance_snd (card : CreditCard) (amount : ℚ)
    (transaction_type : String) (confirmed : Bool) :
    (card.update_balance amount transaction_type confirmed).2 =
      { card with
        current_balance :=
          if transaction_type = "debit" then card.current_balance + amount
          else max 0 (card.current_balance - amount)
        available_credit := card.credit_limit -
          (if transaction_type = "debit" then card.current_balance + amount
           else max 0 (card.current_balance - amount)) } := by
  unfold CreditCard.update_balance CreditCard.update CreditCard.applySet
  cases confirmed <;> split_ifs <;> rfl

/-- C1: after creation `available_credit = credit_limit − current_balance`
holds, and after every `update_balance` the same identity holds; with a
non-negative starting balance and a non-negative amount the balance stays
non-negative, and a credit of at least the balance floors it at exactly 0. -/
theorem ledger_invariant (card : CreditCard) (customer_id : Nat)
    (limit amount : ℚ) (bal : Option ℚ) (tt : String) (confirmed : Bool)
    (hbal : 0 ≤ card.current_balance) (hamt : 0 ≤ amount) :
    ((CreditCard.create customer_id limit bal).available_credit =
        (CreditCard.create customer_id limit bal).credit_limit -
          (CreditCard.create customer_id limit bal).current_balance) ∧
    ((CreditCard.create customer_id limit (some 0)).current_balance = 0) ∧
    ((card.update_balance amount tt confirmed).2.available_credit =
        (card.update_balance amount tt confirmed).2.credit_limit -
          (card.update_balance amount tt confirmed).2.current_balance) ∧
    (0 ≤ (card.update_balance amount tt confirmed).2.current_balance) ∧
    (tt ≠ "debit" → card.current_balance ≤ amount →
      (card.update_balance amount tt confirmed).2.current_balance = 0) := by
  rw [update_balance_snd]
  refine ⟨rfl, rfl, rfl, ?_, ?_⟩
  · dsimp only
    split_ifs
    · linarith
    · exact le_max_left 0 _
  · intro htt hle
    dsimp only
    rw [if_neg htt]
    exact max_eq_left (by linarith)

/-- Witness for C1: limit 1000, balance 100, a credit of 150. -/
theorem ledger_invariant_witness :
    0 ≤ (⟨1, 1000, 100, 900, true⟩ : CreditCard).current_balance ∧
    (0 : ℚ) ≤ 150 ∧
    (((CreditCard.create 1 1000 (some 0)).available_credit =
        (CreditCard.create 1 1000 (some 0)).credit_limit -
          (CreditCard.create 1 1000 (some 0)).current_balance) ∧
      ((CreditCard.create 1 1000 (some 0)).current_balance = 0) ∧
      ((CreditCard.update_balance ⟨1, 1000, 100, 900, true⟩ 150 "payment" true).2.available_credit =
          (CreditCard.update_balance ⟨1, 1000, 100, 900, true⟩ 150 "payment" true).2.credit_limit -
            (CreditCard.update_balance ⟨1, 1000, 100, 900, true⟩ 150 "payment" true).2.current_balance) ∧
      (0 ≤ (CreditCard.update_balance ⟨1, 1000, 100, 900, true⟩ 150 "payment" true).2.current_balance) ∧
      ("payment" ≠ "debit" → (⟨1, 1000, 100, 900, true⟩ : CreditCard).current_balance ≤ 150 →
        (CreditCard.update_balance ⟨1, 1000, 100, 900, true⟩ 150 "payment" true).2.current_balance = 0)) :=
  ⟨by norm_num, by norm_num,
    ledger_invariant ⟨1, 1000, 100, 900, true⟩ 1 1000 150 (some 0) "payment" true
      (by norm_num) (by norm_num)⟩

/-- C9 counterexample: an unconfirmed store write during `update_balance`
is reported as failure, yet the in-memory balance has already moved from
100 to 150. -/
theorem update_balance_failure_mutates :
    (CreditCard.update_balance ⟨1, 1000, 100, 900, true⟩ 50 "debit" false).1 = false ∧
    (CreditCard.update_balance ⟨1, 1000, 100, 900, true⟩ 50 "debit" false).2.current_balance = 150 ∧
    (⟨1, 1000, 100, 900, true⟩ : CreditCard).current_balance ≠ 150 := by
  refine ⟨rfl, ?_, by norm_num⟩
  rw [update_balance_snd]
  norm_num

/-- C9 amended: a mutation always reports exactly the store's confirmation
signal; for the field update `CreditCard.update` an unconfirmed write
leaves the in-memory object unchanged, but `update_balance` mutates the
in-memory balance fields before persisting, so after an unconfirmed write
they hold the same values as after a confirmed one. -/
theorem update_failure_behaviour (card : CreditCard) (u : CreditCardUpdate)
    (amount : ℚ) (tt : String) :
    card.update u false = (false, card) ∧
    (card.update_balance amount tt false).1 = false ∧
    (card.update_balance amount tt false).2 =
      (card.update_balance amount tt true).2 := by
  refine ⟨rfl, rfl, ?_⟩
  rw [update_balance_snd, update_balance_snd]

/-! ### Validators (`app/utils/validators.py`)

`validate_numeric_range` is modelled on numeric input (`ℚ`), where the
`float(value)` conversion cannot fail; the f-string error texts are kept
as fixed messages. -/

/-- The second guard of `validate_numeric_range`:
`max_val is not None and num_value > max_val`. -/
def validate_upper (value : ℚ) (max_val : Option ℚ)
    (field_name : String) : Bool × Option String :=
  match max_val with
  | some m =>
      if value > m then (false, some (field_name ++ " must be at most the maximum"))
      else (true, none)
  | none => (true, none)

/-- `Validators.validate_numeric_range`: reject below `min_val`, then
reject above `max_val`, otherwise accept. -/
def validate_numeric_range (value : ℚ) (min_val max_val : Option ℚ)
    (field_name : String) : Bool × Option String :=
  match min_val with
  | some m =>
      if value < m then (false, some (field_name ++ " must be at least the minimum"))
      else validate_upper value max_val field_name
  | none => validate_upper value max_val field_name

/-- `Validators.validate_transaction_amount`: range [1, 100000]. -/
def validate_transaction_amount (amount : ℚ) : Bool × Option String :=
  validate_numeric_range amount (some 1) (some 100000) "Transaction amount"

/-- `Validators.validate_credit_limit`: range [10000, 1000000]. -/
def validate_credit_limit (limit : ℚ) : Bool × Option String :=
  validate_numeric_range limit (some 10000) (some 1000000) "Credit limit"

/-- An in-range amount passes `validate_transaction_amount`. -/
lemma validate_transaction_amount_true {a : ℚ} (h1 : 1 ≤ a)
    (h2 : a ≤ 100000) : (validate_transaction_amount a).1 = true := by
  unfold validate_transaction_amount validate_numeric_range validate_upper
  dsimp only
  rw [if_neg (by linarith), if_neg (by linarith)]

/-- C8 counterexample: the amount 1/2 lies in the half-open interval
(0, 100000] claimed to be accepted, yet the validator rejects it (the
lower bound in the code is `min_val=1`, not an exclusive 0). -/
theorem transaction_amount_half_rejected :
    (0 : ℚ) < 1 / 2 ∧ (1 / 2 : ℚ) ≤ 100000 ∧
    (validate_transaction_amount (1 / 2)).1 = false := by
  refine ⟨by norm_num, by norm_num, ?_⟩
  unfold validate_transaction_amount validate_numeric_range
  dsimp only
  rw [if_pos (by norm_num)]

/-- C8 amended: transaction-amount validation passes exactly for amounts
in the closed interval [1, 100000]. -/
theorem validate_transaction_amount_iff (a : ℚ) :
    (validate_transaction_amount a).1 = true ↔ 1 ≤ a ∧ a ≤ 100000 := by
  unfold validate_transaction_amount validate_numeric_range validate_upper
  dsimp only
  split_ifs with h1 h2
  · simp only [Bool.false_eq_true, false_iff]
    rintro ⟨ha, _⟩
    linarith
  · simp only [Bool.false_eq_true, false_iff]
    rintro ⟨_, hb⟩
    linarith
  · exact iff_of_true rfl ⟨by linarith, by linarith⟩

/-! ### Transactions (`app/models/transaction.py`,
`app/routes/transactions.py`)

The randomly generated reference number, the currency default and the
wall-clock timestamps are not modelled. -/

def Transaction.STATUS_PENDING : String := "pending"

def Transaction.STATUS_COMPLETED : String := "completed"

/-- One transaction document. -/
structure Transaction where
  card_id : String
  customer_id : Nat
  transaction_type : String
  amount : ℚ
  merchant_name : String
  merchant_category : String
  description : String
  status : String
deriving Repr, DecidableEq

/-- `Transaction.create`: the insert path overwrites whatever `status` the
caller put into `transaction_data` with `STATUS_PENDING`. -/
def Transaction.create (transaction_data : Transaction) : Transaction :=
  { transaction_data with status := Transaction.STATUS_PENDING }

/-- Possible responses of the `POST /transactions/create` route. -/
inductive TxnResult where
  | validationError (msg : String)
  | forbidden
  | ok (txn : Transaction) (card : CreditCard)
deriving Repr, DecidableEq

/-- The `create_transaction` route.  `card` is the result of
`CreditCard.find_by_id(data['card_id'])`; `confirmed` is the store signal
for the balance write (whose boolean result the route ignores).  A missing
request key is the same as a falsy value to `validate_required_fields`,
so required string fields are modelled as plain strings where `""` means
missing-or-empty and `amount = 0` means missing-or-zero. -/
def create_transaction (customer_id : Nat) (card_id : String) (amount : ℚ)
    (merchant_name description : String)
    (transaction_type merchant_category : Option String)
    (card : Option CreditCard) (confirmed : Bool) : TxnResult :=
  if card_id = "" ∨ amount = 0 ∨ merchant_name = "" ∨ description = "" then
    .validationError "Missing required fields"
  else if (validate_transaction_amount amount).1 = false then
    .validationError "Transaction amount out of range"
  else
    match card with
    | none => .forbidden
    | some card =>
      if card.customer_id ≠ customer_id then .forbidden
      else if card.current_balance + amount > card.credit_limit then
        .validationError "Transaction would exceed credit limit"
      else
        .ok
          (Transaction.create
            { card_id := card_id
              customer_id := customer_id
              transaction_type := transaction_type.getD "purchase"
              amount := amount
              merchant_name := merchant_name
              merchant_category := merchant_category.getD "Other"
              description := description
              status := Transaction.STATUS_COMPLETED })
          (card.update_balance amount "debit" confirmed).2

/-- Evaluation of the successful branch of `create_transaction`. -/
lemma create_transaction_ok (customer_id : Nat) (card_id : String)
    (amount : ℚ) (merchant_name description : String)
    (transaction_type merchant_category : Option String)
    (card : CreditCard) (confirmed : Bool)
    (hreq : ¬ (card_id = "" ∨ amount = 0 ∨ merchant_name = "" ∨ description = ""))
    (h1 : 1 ≤ amount) (h2 : amount ≤ 100000)
    (hown : card.customer_id = customer_id)
    (hlim : ¬ card.current_balance + amount > card.credit_limit) :
    create_transaction customer_id card_id amount merchant_name description
        transaction_type merchant_category (some card) confirmed =
      .ok ⟨card_id, customer_id, transaction_type.getD "purchase", amount,
            merchant_name, merchant_category.getD "Other", description,
            Transaction.STATUS_PENDING⟩
          { card with
            current_balance := card.current_balance + amount
            available_credit := card.credit_limit - (card.current_balance + amount) } := by
  unfold create_transaction
  rw [if_neg hreq,
    if_neg (by rw [validate_transaction_amount_true h1 h2]; simp)]
  dsimp only
  rw [if_neg (by rw [hown]; simp), if_neg hlim, update_balance_snd]
  unfold Transaction.create
  simp

/-- C6: the route builds its `transaction_data` with status `completed`,
but `Transaction.create` overwrites it, so the posted record is stored
with status `pending`. -/
theorem posted_transaction_status :
    create_transaction 1 "c1" 50 "Amazon" "order" (some "purchase") none
        (some ⟨1, 1000, 0, 1000, true⟩) true =
      .ok ⟨"c1", 1, "purchase", 50, "Amazon", "Other", "order",
            Transaction.STATUS_PENDING⟩
          ⟨1, 1000, 50, 950, true⟩ ∧
    Transaction.STATUS_PENDING ≠ Transaction.STATUS_COMPLETED := by
  constructor
  · rw [create_transaction_ok 1 "c1" 50 "Amazon" "order" (some "purchase")
      none ⟨1, 1000, 0, 1000, true⟩ true (by simp) (by norm_num)
      (by norm_num) rfl (by norm_num)]
    norm_num [TxnResult.ok.injEq, CreditCard.mk.injEq]
  · decide

/-- C5 counterexample: posting a `payment` transaction of 50 against a
balance of 100 raises the balance to 150 instead of lowering it to 50 —
the route calls `update_balance(amount, 'debit')` for every kind. -/
theorem payment_post_increases_balance :
    create_transaction 1 "c1" 50 "Bank" "bill pay" (some "payment") none
        (some ⟨1, 1000, 100, 900, true⟩) true =
      .ok ⟨"c1", 1, "payment", 50, "Bank", "Other", "bill pay",
            Transaction.STATUS_PENDING⟩
          ⟨1, 1000, 150, 850, true⟩ ∧
    ¬ ((150 : ℚ) = 100 - 50) := by
  constructor
  · rw [create_transaction_ok 1 "c1" 50 "Bank" "bill pay" (some "payment")
      none ⟨1, 1000, 100, 900, true⟩ true (by simp) (by norm_num)
      (by norm_num) rfl (by norm_num)]
    norm_num [TxnResult.ok.injEq, CreditCard.mk.injEq]
  · norm_num

/-- C5 amended: every successfully posted transaction, whatever its kind,
increases `current_balance` by the amount (the route passes `'debit'`
unconditionally to `update_balance`). -/
theorem create_transaction_always_debits (customer_id : Nat)
    (card_id : String) (amount : ℚ) (merchant_name description : String)
    (transaction_type merchant_category : Option String)
    (card : CreditCard) (confirmed : Bool) (txn : Transaction)
    (card' : CreditCard)
    (h : create_transaction customer_id card_id amount merchant_name
        description transaction_type merchant_category (some card) confirmed =
      .ok txn card') :
    card'.current_balance = card.current_balance + amount ∧
    card'.available_credit = card.credit_limit - (card.current_balance + amount) := by
  unfold create_transaction at h
  dsimp only at h
  split_ifs at h
  all_goals first
  | exact TxnResult.noConfusion h
  | (injection h with h1 h2
     subst h2
     rw [update_balance_snd]
     exact ⟨by simp, by simp⟩)

/-- Witness for the amended C5: a refund of 50 posted against balance 100
ends at balance 150. -/
theorem create_transaction_always_debits_witness :
    create_transaction 1 "c1" 50 "Shop" "return" (some "refund") none
        (some ⟨1, 1000, 100, 900, true⟩) true =
      .ok ⟨"c1", 1, "refund", 50, "Shop", "Other", "return",
            Transaction.STATUS_PENDING⟩
          ⟨1, 1000, 150, 850, true⟩ ∧
    ((⟨1, 1000, 150, 850, true⟩ : CreditCard).current_balance =
        (⟨1, 1000, 100, 900, true⟩ : CreditCard).current_balance + 50 ∧
      (⟨1, 1000, 150, 850, true⟩ : CreditCard).available_credit =
        (⟨1, 1000, 100, 900, true⟩ : CreditCard).credit_limit -
          ((⟨1, 1000, 100, 900, true⟩ : CreditCard).current_balance + 50)) := by
  have h : create_transaction 1 "c1" 50 "Shop" "return" (some "refund") none
      (some ⟨1, 1000, 100, 900, true⟩) true =
      .ok ⟨"c1", 1, "refund", 50, "Shop", "Other", "return",
            Transaction.STATUS_PENDING⟩
          ⟨1, 1000, 150, 850, true⟩ := by
    rw [create_transaction_ok 1 "c1" 50 "Shop" "return" (some "refund")
      none ⟨1, 1000, 100, 900, true⟩ true (by simp) (by norm_num)
      (by norm_num) rfl (by norm_num)]
    norm_num [TxnResult.ok.injEq, CreditCard.mk.injEq]
  exact ⟨h, create_transaction_always_debits 1 "c1" 50 "Shop" "return"
    (some "refund") none ⟨1, 1000, 100, 900, true⟩ true _ _ h⟩

/-! ### Card applications (`app/models/card_application.py`,
`app/routes/manager.py`)

Wall-clock timestamps are abstracted: `processed_at : Bool` records
whether the resolution timestamp has been set.  Fire-and-forget side
effects (notification, audit log, the demo sample transactions) and the
response payloads are omitted; what a route call does to the stored state
is captured by a `ResolutionOutcome`. -/

/-- One card-application document. -/
structure CardApplication where
  customer_id : Nat
  card_name : String
  bank_name : String
  card_type : String
  requested_credit_limit : ℚ
  status : String
  approved_credit_limit : Option ℚ
  approved_by : Option Nat
  rejection_reason : Option String
  processed_at : Bool
deriving Repr, DecidableEq

def CardApplication.STATUS_PENDING : String := "pending"

def CardApplication.STATUS_APPROVED : String := "approved"

def CardApplication.STATUS_REJECTED : String := "rejected"

/-- `CardApplication.approve`: Python computes
`approved_credit_limit or self.requested_credit_limit` (a falsy value —
`None` or `0` — falls back to the requested limit), issues the `$set`
write, and rewrites the in-memory attributes only when the store
confirmed the modification. -/
def CardApplication.approve (app : CardApplication) (manager_id : Nat)
    (approved_credit_limit : Option ℚ) (confirmed : Bool) :
    Bool × CardApplication :=
  let approved_limit :=
    match approved_credit_limit with
    | some l => if l = 0 then app.requested_credit_limit else l
    | none => app.requested_credit_limit
  (confirmed,
    if confirmed then
      { app with
        status := CardApplication.STATUS_APPROVED
        approved_by := some manager_id
        approved_credit_limit := some approved_limit
        processed_at := true }
    else app)

/-- `CardApplication.reject`: sets status, resolver, reason and the
processed timestamp, again only rewriting the in-memory attributes when
the store confirmed the write. -/
def CardApplication.reject (app : CardApplication) (manager_id : Nat)
    (rejection_reason : String) (confirmed : Bool) :
    Bool × CardApplication :=
  (confirmed,
    if confirmed then
      { app with
        status := CardApplication.STATUS_REJECTED
        approved_by := some manager_id
        rejection_reason := some rejection_reason
        processed_at := true }
    else app)

/-- The response classes a manager route can produce. -/
inductive ApiResponse where
  | success
  | validationError
  | conflict
  | notFound
  | serverError
deriving Repr, DecidableEq

/-- The observable effect of one resolution route call: the HTTP response
class, the state of the application document afterwards, and the credit
card inserted by the call, if any (the route contains a single
`CreditCard.create`, so at most one card is created per call). -/
structure ResolutionOutcome where
  response : ApiResponse
  application : Option CardApplication
  created_card : Option CreditCard
deriving Repr, DecidableEq

/-- The `approve_application` route.  `application` is the result of
`CardApplication.find_by_id`; `customer_found` tells whether
`Customer.find_by_id(application.customer_id)` returned a document;
`confirmed` is the store signal for the application update. -/
def approve_application (manager_id : Nat)
    (application : Option CardApplication)
    (data_approved_credit_limit : Option ℚ)
    (customer_found : Bool) (confirmed : Bool) : ResolutionOutcome :=
  match application with
  | none => ⟨.notFound, none, none⟩
  | some application =>
    if application.status ≠ CardApplication.STATUS_PENDING then
      ⟨.conflict, some application, none⟩
    else
      let approved_limit :=
        data_approved_credit_limit.getD application.requested_credit_limit
      if (validate_credit_limit approved_limit).1 = false then
        ⟨.validationError, some application, none⟩
      else
        let res := application.approve manager_id (some approved_limit) confirmed
        if res.1 then
          if customer_found then
            ⟨.success, some res.2,
              some (CreditCard.create application.customer_id approved_limit (some 0))⟩
          else ⟨.serverError, some res.2, none⟩
        else ⟨.serverError, some res.2, none⟩

/-- Python `str.strip()`: drop leading and trailing whitespace.  Written
over the character list (rather than `String.trim`, whose auxiliaries use
well-founded recursion) so that concrete instances evaluate. -/
def strip (s : String) : String :=
  ⟨(((s.data.dropWhile Char.isWhitespace).reverse).dropWhile Char.isWhitespace).reverse⟩

/-- The `reject_application` route.  The rejection reason (defaulted when
the key is absent) is validated before the application is even fetched;
the falsy test and the strip-length test are both modelled. -/
def reject_application (manager_id : Nat)
    (application : Option CardApplication)
    (data_rejection_reason : Option String)
    (confirmed : Bool) : ResolutionOutcome :=
  let rejection_reason :=
    data_rejection_reason.getD "Application does not meet our criteria"
  if rejection_reason = "" ∨ (strip rejection_reason).length < 10 then
    ⟨.validationError, application, none⟩
  else
    match application with
    | none => ⟨.notFound, none, none⟩
    | some application =>
      if application.status ≠ CardApplication.STATUS_PENDING then
        ⟨.conflict, some application, none⟩
      else
        let res := application.reject manager_id rejection_reason confirmed
        if res.1 then ⟨.success, some res.2, none⟩
        else ⟨.serverError, some res.2, none⟩

/-- An in-range limit passes `validate_credit_limit`. -/
lemma validate_credit_limit_true {a : ℚ} (h1 : 10000 ≤ a)
    (h2 : a ≤ 1000000) : (validate_credit_limit a).1 = true := by
  unfold validate_credit_limit validate_numeric_range validate_upper
  dsimp only
  rw [if_neg (by linarith), if_neg (by linarith)]

/-- An application already resolved by a manager. -/
def approvedApp : CardApplication :=
  ⟨1, "HDFC Millennia Credit Card", "HDFC Bank", "Rewards", 50000,
    "approved", some 50000, some 9, none, true⟩

/-- C2 counterexample: a reject attempt on an already-approved application
whose reason is shorter than 10 characters fails with `ValidationError`,
not `ConflictError` (the reason is validated before the status check);
the application is still left unchanged. -/
theorem reject_resolved_short_reason :
    reject_application 7 (some approvedApp) (some "bad") true =
      ⟨ApiResponse.validationError, some approvedApp, none⟩ ∧
    ApiResponse.validationError ≠ ApiResponse.conflict := by
  constructor
  · unfold reject_application
    dsimp only
    rw [if_pos (by decide)]
  · decide

/-- C2 amended: on a non-pending application every approve attempt fails
with `ConflictError`, every reject attempt whose reason passes the
10-character validation fails with `ConflictError`, a reject attempt with
a too-short reason fails earlier with `ValidationError`; in every case the
application document is left unchanged.  A store-confirmed approve or
reject always leaves a non-pending status, so approve-then-reject and
reject-then-approve remain impossible. -/
theorem resolved_application_terminal (m : Nat) (app : CardApplication)
    (dl : Option ℚ) (reason : Option String) (cf confirmed : Bool)
    (h : app.status ≠ CardApplication.STATUS_PENDING) :
    approve_application m (some app) dl cf confirmed =
      ⟨ApiResponse.conflict, some app, none⟩ ∧
    (¬ ((reason.getD "Application does not meet our criteria") = "" ∨
        (strip (reason.getD "Application does not meet our criteria")).length < 10) →
      reject_application m (some app) reason confirmed =
        ⟨ApiResponse.conflict, some app, none⟩) ∧
    (((reason.getD "Application does not meet our criteria") = "" ∨
        (strip (reason.getD "Application does not meet our criteria")).length < 10) →
      reject_application m (some app) reason confirmed =
        ⟨ApiResponse.validationError, some app, none⟩) ∧
    (∀ (app0 : CardApplication) (lim : Option ℚ) (r : String),
      (app0.approve m lim true).2.status ≠ CardApplication.STATUS_PENDING ∧
      (app0.reject m r true).2.status ≠ CardApplication.STATUS_PENDING) := by
  refine ⟨?_, ?_, ?_, ?_⟩
  · unfold approve_application
    dsimp only
    rw [if_pos h]
  · intro hr
    unfold reject_application
    dsimp only
    rw [if_neg hr]
    rw [if_pos h]
  · intro hr
    unfold reject_application
    dsimp only
    rw [if_pos hr]
  · intro app0 lim r
    constructor
    · simp [CardApplication.approve, CardApplication.STATUS_APPROVED,
        CardApplication.STATUS_PENDING]
    · simp [CardApplication.reject, CardApplication.STATUS_REJECTED,
        CardApplication.STATUS_PENDING]

/-- Witness for the amended C2 on an already-approved application. -/
theorem resolved_application_terminal_witness :
    approvedApp.status ≠ CardApplication.STATUS_PENDING ∧
    (approve_application 7 (some approvedApp) none true true =
        ⟨ApiResponse.conflict, some approvedApp, none⟩ ∧
      (¬ (((none : Option String).getD "Application does not meet our criteria") = "" ∨
          (strip ((none : Option String).getD "Application does not meet our criteria")).length < 10) →
        reject_application 7 (some approvedApp) none true =
          ⟨ApiResponse.conflict, some approvedApp, none⟩) ∧
      ((((none : Option String).getD "Application does not meet our criteria") = "" ∨
          (strip ((none : Option String).getD "Application does not meet our criteria")).length < 10) →
        reject_application 7 (some approvedApp) none true =
          ⟨ApiResponse.validationError, some approvedApp, none⟩) ∧
      (∀ (app0 : CardApplication) (lim : Option ℚ) (r : String),
        (app0.approve 7 lim true).2.status ≠ CardApplication.STATUS_PENDING ∧
        (app0.reject 7 r true).2.status ≠ CardApplication.STATUS_PENDING)) :=
  ⟨by decide,
    resolved_application_terminal 7 approvedApp none none true true (by decide)⟩

/-- An application still awaiting resolution. -/
def pendingApp : CardApplication :=
  ⟨5, "HDFC Millennia Credit Card", "HDFC Bank", "Rewards", 50000,
    "pending", none, none, none, false⟩

/-- C3 counterexample: when the applicant's customer document is missing,
the route approves the application first and only then fails looking up
the customer — the call ends with a server error, the application is left
in status `approved`, and no credit card has been created: an approved
application without its account. -/
theorem approve_without_customer :
    approve_application 7 (some pendingApp) (some 50000) false true =
      ⟨ApiResponse.serverError,
        some { pendingApp with
          status := CardApplication.STATUS_APPROVED
          approved_by := some 7
          approved_credit_limit := some 50000
          processed_at := true },
        none⟩ ∧
    CardApplication.STATUS_APPROVED ≠ CardApplication.STATUS_PENDING := by
  constructor
  · unfold approve_application
    dsimp only
    rw [if_neg (by decide)]
    rw [if_neg (by
      rw [validate_credit_limit_true (by norm_num) (by norm_num)]
      simp)]
    unfold CardApplication.approve
    dsimp only [Option.getD]
    rw [if_neg (by norm_num : ¬ (50000 : ℚ) = 0)]
    simp
  · decide

/-- C3 amended: with the store confirming and the applicant's customer
document present, approving a pending application with an in-range limit
(defaulting to the requested limit when omitted) marks it approved with
that limit and creates exactly one credit card with that credit limit,
balance 0 and `available_credit = credit_limit`. -/
theorem approve_creates_account (m : Nat) (app : CardApplication)
    (dl : Option ℚ)
    (hp : app.status = CardApplication.STATUS_PENDING)
    (hL1 : 10000 ≤ dl.getD app.requested_credit_limit)
    (hL2 : dl.getD app.requested_credit_limit ≤ 1000000) :
    approve_application m (some app) dl true true =
      ⟨ApiResponse.success,
        some { app with
          status := CardApplication.STATUS_APPROVED
          approved_by := some m
          approved_credit_limit := some (dl.getD app.requested_credit_limit)
          processed_at := true },
        some ⟨app.customer_id, dl.getD app.requested_credit_limit, 0,
          dl.getD app.requested_credit_limit, true⟩⟩ := by
  unfold approve_application
  dsimp only
  rw [if_neg (by simp [hp])]
  rw [if_neg (by rw [validate_credit_limit_true hL1 hL2]; simp)]
  unfold CardApplication.approve CreditCard.create
  dsimp only
  rw [if_neg (show ¬ dl.getD app.requested_credit_limit = 0 from by
    intro h0
    rw [h0] at hL1
    linarith)]
  simp

/-- Witness for the amended C3: approving `pendingApp` with the limit
omitted issues a card at the requested limit of 50000. -/
theorem approve_creates_account_witness :
    pendingApp.status = CardApplication.STATUS_PENDING ∧
    10000 ≤ (none : Option ℚ).getD pendingApp.requested_credit_limit ∧
    (none : Option ℚ).getD pendingApp.requested_credit_limit ≤ 1000000 ∧
    approve_application 7 (some pendingApp) none true true =
      ⟨ApiResponse.success,
        some { pendingApp with
          status := CardApplication.STATUS_APPROVED
          approved_by := some 7
          approved_credit_limit := some ((none : Option ℚ).getD pendingApp.requested_credit_limit)
          processed_at := true },
        some ⟨pendingApp.customer_id, (none : Option ℚ).getD pendingApp.requested_credit_limit, 0,
          (none : Option ℚ).getD pendingApp.requested_credit_limit, true⟩⟩ :=
  ⟨rfl, by norm_num [pendingApp], by norm_num [pendingApp],
    approve_creates_account 7 pendingApp none rfl
      (by norm_num [pendingApp]) (by norm_num [pendingApp])⟩

end CreditBackend
